import Mathlib

/-!
Shallow embedding of `src/frontend/src/classes/interactable/ConnectFourAreaController.ts`
(the ConnectFour game-area controller of a town client).

JavaScript details carried over faithfully:
* `Option` models `undefined`-able values; a JS truthiness test on a string
  (`if (red)`, `if (!instanceID)`) is false for both `undefined` and the empty
  string, which `truthyString` captures.
* A method that can `throw` is modelled in `Except String`, the error message
  being the thrown `Error`'s message; a method that sends commands returns the
  command(s) sent, so an `Except.error` result means the throw happened before
  any send.  All methods are pure over an explicit `ControllerState`.
* `_.isEqual` on the 6×7 board arrays is structural equality of
  `List (List (Option ConnectFourColor))`.
-/

/-- The two piece colors (`ConnectFourColor` in `CoveyTownSocket`). -/
inductive ConnectFourColor where
  | Red
  | Yellow
deriving DecidableEq, Repr

/-- `ConnectFourCell = ConnectFourColor | undefined` (line 15 of the source). -/
def ConnectFourCell := Option ConnectFourColor
deriving DecidableEq, Repr

/-- A move of the game: `{ row: 0..5, col: 0..6, gamePiece }`. -/
structure ConnectFourMove where
  row : Fin 6
  col : Fin 7
  gamePiece : ConnectFourColor
deriving DecidableEq, Repr

/-- The game-status enumeration (`GameStatus` in `CoveyTownSocket`). -/
inductive GameStatus where
  | IN_PROGRESS
  | WAITING_TO_START
  | OVER
  | WAITING_FOR_PLAYERS
deriving DecidableEq, Repr

/-- `ConnectFourGameState`: the server-reported state of one game.  Player
identifiers are strings; `red`, `yellow`, `winner` and `firstPlayer` are
optional per the spec's data model (§3). -/
structure ConnectFourGameState where
  moves : List ConnectFourMove
  status : GameStatus
  red : Option String
  yellow : Option String
  winner : Option String
  firstPlayer : Option ConnectFourColor
deriving DecidableEq, Repr

/-- A game instance inside a `GameArea` snapshot: seated players plus state. -/
structure GameInstance where
  state : ConnectFourGameState
  players : List String
deriving DecidableEq, Repr

/-- `GameArea<ConnectFourGameState>`: the snapshot model; the game is optional. -/
structure GameArea where
  game : Option GameInstance
deriving DecidableEq, Repr

/-- A `PlayerController` is identified by its `id` in every use the
ConnectFour controller makes of it. -/
structure PlayerController where
  id : String
deriving DecidableEq, Repr

/-- The mutable fields of the controller that the ConnectFour methods read and
write: the held board `_board`, the held snapshot `_model`, the occupant list,
the active instance identifier `_instanceID`, and the local player's identity
`_townController.ourPlayer.id`. -/
structure ControllerState where
  board : List (List ConnectFourCell)
  model : GameArea
  occupants : List PlayerController
  instanceID : Option String
  ourPlayerID : String
deriving DecidableEq, Repr

/-- `CONNECT_FOUR_ROWS` (line 20). -/
def CONNECT_FOUR_ROWS : Nat := 6

/-- `CONNECT_FOUR_COLS` (line 21). -/
def CONNECT_FOUR_COLS : Nat := 7

/-- `COLUMN_FULL_MESSAGE` (line 22). -/
def COLUMN_FULL_MESSAGE : String := "The column is full"

/-- Modelled from the spec: `NO_GAME_IN_PROGRESS_ERROR` is imported from the
generic base controller module (`GameAreaController.ts`), which is not under
`src/`; only its name is observable here, so it is an arbitrary fixed string. -/
def NO_GAME_IN_PROGRESS_ERROR : String := "No game in progress"

/-- The message of the error thrown by `startGame` (line 228). -/
def NO_GAME_STARTABLE : String := "NO_GAME_STARTABLE"

/-- The message of the error thrown by the `gamePiece` accessor (line 115). -/
def PLAYER_NOT_IN_GAME_ERROR : String := "PLAYER_NOT_IN_GAME_ERROR"

/-- The all-`undefined` 6×7 grid literal (lines 31–38 and 199–206). -/
def emptyBoard : List (List ConnectFourCell) :=
  [[none, none, none, none, none, none, none],
   [none, none, none, none, none, none, none],
   [none, none, none, none, none, none, none],
   [none, none, none, none, none, none, none],
   [none, none, none, none, none, none, none],
   [none, none, none, none, none, none, none]]

/-- One assignment `board[r][c] = v` on a JS array-of-arrays (in the source,
`r` and `c` always lie inside the 6×7 grid, so `List.set` never truncates). -/
def boardSet (b : List (List ConnectFourCell)) (r c : Nat) (v : ConnectFourCell) :
    List (List ConnectFourCell) :=
  b.set r ((b.getD r []).set c v)

/-- `board[r][c]` read on a JS array-of-arrays (out of range reads `undefined`). -/
def getCell (b : List (List ConnectFourCell)) (r c : Nat) : ConnectFourCell :=
  (b.getD r []).getD c none

/-- The board rebuild of `_updateFrom` (lines 199–209): start from the
all-empty grid and perform `newBoard[move.row][move.col] = move.gamePiece`
for each move of the log, in log order. -/
def rebuild (moves : List ConnectFourMove) : List (List ConnectFourCell) :=
  moves.foldl (fun b m => boardSet b m.row m.col (some m.gamePiece)) emptyBoard

/-- JS truthiness of an optional string: `undefined` and `""` are falsy. -/
def truthyString : Option String → Bool
  | none => false
  | some s => !s.isEmpty

/-- The `red` getter (lines 54–60): resolve the raw identifier against the
occupant list; `if (red)` is a truthiness test on the identifier string. -/
def ControllerState.red (s : ControllerState) : Option PlayerController :=
  match s.model.game with
  | some g =>
    match g.state.red with
    | some r => if r.isEmpty then none else s.occupants.find? (fun p => p.id == r)
    | none => none
  | none => none

/-- The `yellow` getter (lines 65–71). -/
def ControllerState.yellow (s : ControllerState) : Option PlayerController :=
  match s.model.game with
  | some g =>
    match g.state.yellow with
    | some y => if y.isEmpty then none else s.occupants.find? (fun p => p.id == y)
    | none => none
  | none => none

/-- The `moveCount` getter (lines 87–89): `this._model.game?.state.moves.length || 0`. -/
def ControllerState.moveCount (s : ControllerState) : Nat :=
  match s.model.game with
  | some g => g.state.moves.length
  | none => 0

/-- `this._model.game?.state.status` (optional chaining, before the getter's
`WAITING_FOR_PLAYERS` defaulting). -/
def ControllerState.gameStatus (s : ControllerState) : Option GameStatus :=
  s.model.game.map (fun g => g.state.status)

/-- `this._model.game?.state.firstPlayer` (optional chaining). -/
def ControllerState.firstPlayer (s : ControllerState) : Option ConnectFourColor :=
  s.model.game.bind (fun g => g.state.firstPlayer)

/-- The `whoseTurn` getter (lines 137–160), with its two
`throw new Error('Invalid move count')` branches kept as `Except.error`.
The final implicit `return undefined` (no `else` on line 159) is `ok none`. -/
def ControllerState.whoseTurnE (s : ControllerState) :
    Except String (Option PlayerController) :=
  match s.red, s.yellow with
  | some red, some yellow =>
    if s.gameStatus ≠ some GameStatus.IN_PROGRESS then Except.ok none
    else
      match s.firstPlayer with
      | some ConnectFourColor.Red =>
        if s.moveCount % 2 = 0 then Except.ok (some red)
        else if s.moveCount % 2 = 1 then Except.ok (some yellow)
        else Except.error "Invalid move count"
      | some ConnectFourColor.Yellow =>
        if s.moveCount % 2 = 0 then Except.ok (some yellow)
        else if s.moveCount % 2 = 1 then Except.ok (some red)
        else Except.error "Invalid move count"
      | none => Except.ok none
  | _, _ => Except.ok none

/-- The value of `whoseTurn` on the non-throwing paths (the throwing paths are
unreachable; see the claim about them). -/
def ControllerState.whoseTurn (s : ControllerState) : Option PlayerController :=
  match s.whoseTurnE with
  | Except.ok v => v
  | Except.error _ => none

/-- The `isOurTurn` getter (lines 94–96): `this.whoseTurn?.id === ourPlayer.id`. -/
def ControllerState.isOurTurn (s : ControllerState) : Bool :=
  (s.whoseTurn.map (fun p => p.id)) == some s.ourPlayerID

/-- The `status` getter (lines 122–129): `WAITING_FOR_PLAYERS` when there is
no game, otherwise the snapshot's status verbatim. -/
def ControllerState.status (s : ControllerState) : GameStatus :=
  match s.model.game with
  | some g => g.state.status
  | none => GameStatus.WAITING_FOR_PLAYERS

/-- The `gamePiece` getter (lines 109–116). -/
def ControllerState.gamePiece (s : ControllerState) : Except String ConnectFourColor :=
  if (s.red.map (fun p => p.id)) = some s.ourPlayerID then
    Except.ok ConnectFourColor.Red
  else if (s.yellow.map (fun p => p.id)) = some s.ourPlayerID then
    Except.ok ConnectFourColor.Yellow
  else Except.error PLAYER_NOT_IN_GAME_ERROR

/-- The notifications the controller can emit during `_updateFrom`. -/
inductive GameEvent where
  | boardChanged (board : List (List ConnectFourCell))
  | turnChanged (ourTurn : Bool)
deriving DecidableEq, Repr

/-- Recognizer for `boardChanged` notifications. -/
def GameEvent.isBoardChanged : GameEvent → Bool
  | GameEvent.boardChanged _ => true
  | _ => false

/-- Recognizer for `turnChanged` notifications. -/
def GameEvent.isTurnChanged : GameEvent → Bool
  | GameEvent.turnChanged _ => true
  | _ => false

/-- Modelled from the spec: the generic base controller's merge hook
(`super._updateFrom`, line 196) lives in `GameAreaController.ts`, which is not
under `src/`.  Per the spec it replaces the held snapshot wholesale and
refreshes the occupant list, and is otherwise opaque to the concrete
controller; it never touches `_board`. -/
def baseUpdateFrom (s : ControllerState) (newModel : GameArea)
    (newOccupants : List PlayerController) : ControllerState :=
  { s with model := newModel, occupants := newOccupants }

/-- `_updateFrom` (lines 194–217): capture `wasOurTurn` from the previous
state, delegate to the base merge, rebuild the board from the new snapshot's
move log when a game is present, emit `boardChanged` only when the rebuilt
board differs structurally from the held one, then emit `turnChanged` only
when turn ownership flipped.  Returns the new state together with the emitted
notifications in emission order. -/
def ControllerState.updateFrom (s : ControllerState) (newModel : GameArea)
    (newOccupants : List PlayerController) : ControllerState × List GameEvent :=
  let wasOurTurn := s.isOurTurn
  let s1 := baseUpdateFrom s newModel newOccupants
  let p :=
    match newModel.game with
    | some newState =>
      let newBoard := rebuild newState.state.moves
      if newBoard = s1.board then (s1, ([] : List GameEvent))
      else ({ s1 with board := newBoard }, [GameEvent.boardChanged newBoard])
    | none => (s1, ([] : List GameEvent))
  let s2 := p.1
  let nowOurTurn := s2.isOurTurn
  if wasOurTurn ≠ nowOurTurn then (s2, p.2 ++ [GameEvent.turnChanged nowOurTurn])
  else (s2, p.2)

/-- The row-scan loop of `makeMove` (lines 258–264), unrolled: `rowIndex`
starts at 0; `i` runs from 5 down to 0 and the first empty cell wins. -/
def nextFreeRow (b : List (List ConnectFourCell)) (col : Nat) : Nat :=
  if (getCell b 5 col).isNone then 5
  else if (getCell b 4 col).isNone then 4
  else if (getCell b 3 col).isNone then 3
  else if (getCell b 2 col).isNone then 2
  else if (getCell b 1 col).isNone then 1
  else if (getCell b 0 col).isNone then 0
  else 0

/-- The two outbound command shapes. -/
inductive GameCommand where
  | StartGame (gameID : String)
  | GameMove (gameID : String) (row : Nat) (col : Nat) (gamePiece : ConnectFourColor)
deriving DecidableEq, Repr

/-- `makeMove` (lines 250–275).  On success the returned command is the one
sent over the transport; an error result is a throw that happens before any
send and before any state mutation (the method never mutates controller
state).  `!instanceID` is string truthiness; `this._board[0][col]` is truthy
exactly when the cell holds a color; `this.gamePiece` may itself throw. -/
def ControllerState.makeMove (s : ControllerState) (col : Fin 7) :
    Except String GameCommand :=
  if ¬ truthyString s.instanceID ∨ s.gameStatus ≠ some GameStatus.IN_PROGRESS then
    Except.error NO_GAME_IN_PROGRESS_ERROR
  else if (getCell s.board 0 col).isSome then
    Except.error COLUMN_FULL_MESSAGE
  else
    match s.gamePiece with
    | Except.ok pc =>
      Except.ok (GameCommand.GameMove (s.instanceID.getD "") (nextFreeRow s.board col) col pc)
    | Except.error e => Except.error e

/-- `startGame` (lines 226–238).  The guard compares `_instanceID` against
`undefined`; the later `if (instanceID)` before the send is a truthiness test,
so with an empty-string identifier the method resolves without sending.  The
success value lists the commands sent (zero or one). -/
def ControllerState.startGame (s : ControllerState) : Except String (List GameCommand) :=
  if s.status ≠ GameStatus.WAITING_TO_START ∨ s.instanceID = none then
    Except.error NO_GAME_STARTABLE
  else
    match s.instanceID with
    | some iid =>
      if iid.isEmpty then Except.ok [] else Except.ok [GameCommand.StartGame iid]
    | none => Except.ok []

/-- Well-formedness of a board value: 6 rows of 7 cells each. -/
def boardWF (b : List (List ConnectFourCell)) : Prop :=
  b.length = 6 ∧ ∀ row ∈ b, row.length = 7

/-- Modelled from the spec's invariant wording (§3): "the rebuild-from-moves of
the most recently applied Snapshot's move log", read over every snapshot the
transport can deliver, so a snapshot carrying no Game contributes an empty
log.  This is the spec-side reading compared against the code's behavior. -/
def specSnapshotMoveLog (m : GameArea) : List ConnectFourMove :=
  match m.game with
  | some g => g.state.moves
  | none => []

/-- Sample occupant bound to the red identifier in the sample snapshots. -/
def pRed : PlayerController := ⟨"r1"⟩

/-- Sample occupant bound to the yellow identifier in the sample snapshots. -/
def pYellow : PlayerController := ⟨"y1"⟩

/-- Sample occupant list. -/
def sampleOccupants : List PlayerController := [pRed, pYellow]

/-- Sample move: red piece at row 0, column 3. -/
def mv1 : ConnectFourMove := ⟨0, 3, ConnectFourColor.Red⟩

/-- Sample in-progress game instance with an empty move log. -/
def gi0 : GameInstance :=
  { state := { moves := [], status := GameStatus.IN_PROGRESS, red := some "r1",
               yellow := some "y1", winner := none,
               firstPlayer := some ConnectFourColor.Red },
    players := ["r1", "y1"] }

/-- Sample in-progress game instance whose move log holds `mv1`. -/
def gi1 : GameInstance :=
  { state := { moves := [mv1], status := GameStatus.IN_PROGRESS, red := some "r1",
               yellow := some "y1", winner := none,
               firstPlayer := some ConnectFourColor.Red },
    players := ["r1", "y1"] }

/-- Sample snapshot carrying `gi1`. -/
def snap1 : GameArea := { game := some gi1 }

/-- Sample snapshot carrying no game. -/
def snapNoGame : GameArea := { game := none }

/-- Sample controller state before any snapshot application. -/
def cs0 : ControllerState :=
  { board := emptyBoard, model := { game := none }, occupants := [],
    instanceID := none, ourPlayerID := "r1" }

/-- Sample controller state holding an in-progress game with an empty board,
the local player being the red one. -/
def csInProgress : ControllerState :=
  { board := emptyBoard, model := { game := some gi0 },
    occupants := sampleOccupants, instanceID := some "game1",
    ourPlayerID := "r1" }

/-- Sample controller state whose column 3 is completely full. -/
def csFullColumn : ControllerState :=
  { board :=
      [[none, none, none, some ConnectFourColor.Red, none, none, none],
       [none, none, none, some ConnectFourColor.Yellow, none, none, none],
       [none, none, none, some ConnectFourColor.Red, none, none, none],
       [none, none, none, some ConnectFourColor.Yellow, none, none, none],
       [none, none, none, some ConnectFourColor.Red, none, none, none],
       [none, none, none, some ConnectFourColor.Yellow, none, none, none]],
    model := { game := some gi0 },
    occupants := sampleOccupants, instanceID := some "game1",
    ourPlayerID := "r1" }

/-- Sample game instance in the `WAITING_TO_START` status. -/
def giWaiting : GameInstance :=
  { state := { moves := [], status := GameStatus.WAITING_TO_START,
               red := some "r1", yellow := some "y1", winner := none,
               firstPlayer := none },
    players := ["r1", "y1"] }

/-- Sample controller state in the `WAITING_TO_START` status. -/
def csWaiting : ControllerState :=
  { board := emptyBoard, model := { game := some giWaiting },
    occupants := sampleOccupants, instanceID := some "game1",
    ourPlayerID := "r1" }

/-- Sample inconsistent game instance: in progress but `firstPlayer` holding
neither recognized value. -/
def giInconsistent : GameInstance :=
  { state := { moves := [], status := GameStatus.IN_PROGRESS,
               red := some "r1", yellow := some "y1", winner := none,
               firstPlayer := none },
    players := ["r1", "y1"] }

/-- Sample inconsistent controller state: in progress with both bindings
resolving but `firstPlayer` holding neither recognized value. -/
def csInconsistent : ControllerState :=
  { board := emptyBoard, model := { game := some giInconsistent },
    occupants := sampleOccupants, instanceID := some "game1",
    ourPlayerID := "r1" }

theorem getD_set_ne {α : Type} (l : List α) (x d : α) (n m : Nat) (h : n ≠ m) :
    (l.set n x).getD m d = l.getD m d := by
  rw [List.getD_eq_getElem?_getD, List.getD_eq_getElem?_getD, List.getElem?_set_ne h]

theorem getD_set_self {α : Type} (l : List α) (x d : α) (n : Nat) (h : n < l.length) :
    (l.set n x).getD n d = x := by
  rw [List.getD_eq_getElem?_getD, List.getElem?_set_self h]
  rfl

theorem boardWF_emptyBoard : boardWF emptyBoard := by
  refine ⟨rfl, ?_⟩
  decide

theorem boardWF_boardSet (b : List (List ConnectFourCell)) (hwf : boardWF b)
    (r c : Nat) (hr : r < 6) (v : ConnectFourCell) : boardWF (boardSet b r c v) := by
  obtain ⟨hlen, hrows⟩ := hwf
  refine ⟨by simp [boardSet, hlen], ?_⟩
  intro row hrow
  rcases List.mem_or_eq_of_mem_set hrow with h | h
  · exact hrows _ h
  · subst h
    rw [List.length_set]
    rw [List.getD_eq_getElem b [] (by omega)]
    exact hrows _ (List.getElem_mem (by omega))

theorem getD_row_length (b : List (List ConnectFourCell)) (hwf : boardWF b)
    (r : Nat) (hr : r < 6) : (b.getD r []).length = 7 := by
  obtain ⟨hlen, hrows⟩ := hwf
  rw [List.getD_eq_getElem b [] (by omega)]
  exact hrows _ (List.getElem_mem (by omega))

theorem getCell_boardSet_self (b : List (List ConnectFourCell)) (hwf : boardWF b)
    (r c : Nat) (hr : r < 6) (hc : c < 7) (v : ConnectFourCell) :
    getCell (boardSet b r c v) r c = v := by
  have hlen := hwf.1
  have hrowlen : (b.getD r []).length = 7 := getD_row_length b hwf r hr
  unfold getCell boardSet
  rw [getD_set_self b ((b.getD r []).set c v) [] r (by omega)]
  rw [getD_set_self (b.getD r []) v none c (by omega)]

theorem getCell_boardSet_ne (b : List (List ConnectFourCell)) (r c r' c' : Nat)
    (v : ConnectFourCell) (hne : r' ≠ r ∨ c' ≠ c) :
    getCell (boardSet b r c v) r' c' = getCell b r' c' := by
  unfold getCell boardSet
  by_cases hrr : r' = r
  · subst hrr
    rcases hne with h | hcc
    · exact absurd rfl h
    · by_cases hr : r' < b.length
      · rw [getD_set_self b ((b.getD r' []).set c v) [] r' hr]
        rw [getD_set_ne (b.getD r' []) v none c c' (Ne.symm hcc)]
      · rw [List.set_eq_of_length_le (by omega)]
  · rw [getD_set_ne b ((b.getD r []).set c v) [] r r' (Ne.symm hrr)]

theorem rebuild_append (l : List ConnectFourMove) (m : ConnectFourMove) :
    rebuild (l ++ [m]) = boardSet (rebuild l) m.row m.col (some m.gamePiece) := by
  unfold rebuild
  rw [List.foldl_append]
  rfl

theorem boardWF_rebuild (l : List ConnectFourMove) : boardWF (rebuild l) := by
  induction l using List.reverseRecOn with
  | nil => exact boardWF_emptyBoard
  | append_singleton l m ih =>
    rw [rebuild_append]
    exact boardWF_boardSet _ ih _ _ m.row.isLt _

theorem getCell_rebuild (l : List ConnectFourMove) (r : Fin 6) (c : Fin 7) :
    getCell (rebuild l) r c =
      (l.reverse.find? (fun m => m.row == r && m.col == c)).map
        (fun m => m.gamePiece) := by
  induction l using List.reverseRecOn with
  | nil =>
    revert r c
    decide
  | append_singleton l m ih =>
    rw [rebuild_append, List.reverse_append]
    simp only [List.reverse_singleton, List.singleton_append, List.find?_cons]
    cases hpm : (m.row == r && m.col == c)
    · have hne : (r : Nat) ≠ (m.row : Nat) ∨ (c : Nat) ≠ (m.col : Nat) := by
        simp only [Bool.and_eq_false_iff, beq_eq_false_iff_ne] at hpm
        rcases hpm with h | h
        · exact Or.inl (fun hn => h (Fin.ext hn.symm))
        · exact Or.inr (fun hn => h (Fin.ext hn.symm))
      rw [getCell_boardSet_ne _ _ _ _ _ _ hne, ih]
    · simp only [Bool.and_eq_true, beq_iff_eq] at hpm
      obtain ⟨h1, h2⟩ := hpm
      subst h1
      subst h2
      rw [getCell_boardSet_self _ (boardWF_rebuild l) _ _ m.row.isLt m.col.isLt]
      simp

theorem isOurTurn_board_irrel (s : ControllerState) (b : List (List ConnectFourCell)) :
    ({ s with board := b } : ControllerState).isOurTurn = s.isOurTurn := rfl

theorem baseUpdateFrom_board (s : ControllerState) (nm : GameArea)
    (occ : List PlayerController) : (baseUpdateFrom s nm occ).board = s.board := rfl

theorem updateFrom_board (s : ControllerState) (nm : GameArea)
    (occ : List PlayerController) :
    (s.updateFrom nm occ).1.board =
      (match nm.game with
       | some g => rebuild g.state.moves
       | none => s.board) := by
  unfold ControllerState.updateFrom
  cases hg : nm.game with
  | none =>
    simp only [hg]
    by_cases ht : s.isOurTurn = (baseUpdateFrom s nm occ).isOurTurn <;>
      simp [ht, baseUpdateFrom_board]
  | some g =>
    simp only [hg, baseUpdateFrom_board]
    by_cases hb : rebuild g.state.moves = s.board <;>
      by_cases ht : s.isOurTurn = (baseUpdateFrom s nm occ).isOurTurn <;>
      simp [hb, ht, baseUpdateFrom_board, isOurTurn_board_irrel]

theorem updateFrom_fst_isOurTurn (s : ControllerState) (nm : GameArea)
    (occ : List PlayerController) :
    (s.updateFrom nm occ).1.isOurTurn = (baseUpdateFrom s nm occ).isOurTurn := by
  unfold ControllerState.updateFrom
  cases hg : nm.game with
  | none =>
    simp only [hg]
    by_cases ht : s.isOurTurn = (baseUpdateFrom s nm occ).isOurTurn <;> simp [ht]
  | some g =>
    simp only [hg, baseUpdateFrom_board]
    by_cases hb : rebuild g.state.moves = s.board <;>
      by_cases ht : s.isOurTurn = (baseUpdateFrom s nm occ).isOurTurn <;>
      simp [hb, ht, isOurTurn_board_irrel]

theorem updateFrom_events (s : ControllerState) (nm : GameArea)
    (occ : List PlayerController) :
    (s.updateFrom nm occ).2 =
      (match nm.game with
       | some g =>
         if rebuild g.state.moves = s.board then []
         else [GameEvent.boardChanged (rebuild g.state.moves)]
       | none => []) ++
      (if s.isOurTurn ≠ (baseUpdateFrom s nm occ).isOurTurn
       then [GameEvent.turnChanged ((baseUpdateFrom s nm occ).isOurTurn)]
       else []) := by
  unfold ControllerState.updateFrom
  cases hg : nm.game with
  | none =>
    simp only [hg]
    by_cases ht : s.isOurTurn = (baseUpdateFrom s nm occ).isOurTurn <;> simp [ht]
  | some g =>
    simp only [hg, baseUpdateFrom_board]
    by_cases hb : rebuild g.state.moves = s.board <;>
      by_cases ht : s.isOurTurn = (baseUpdateFrom s nm occ).isOurTurn <;>
      simp [hb, ht, isOurTurn_board_irrel]

theorem whoseTurnE_ne_error (s : ControllerState) (e : String) :
    s.whoseTurnE ≠ Except.error e := by
  unfold ControllerState.whoseTurnE
  cases hr : s.red with
  | none => simp
  | some rp =>
    cases hy : s.yellow with
    | none => simp
    | some yp =>
      dsimp only
      by_cases hst : s.gameStatus ≠ some GameStatus.IN_PROGRESS
      · rw [if_pos hst]
        simp
      · rw [if_neg hst]
        cases hfp : s.firstPlayer with
        | none => simp
        | some c =>
          cases c <;>
            rcases Nat.mod_two_eq_zero_or_one s.moveCount with h | h <;>
            simp [h]

theorem whoseTurnE_ok (s : ControllerState) :
    s.whoseTurnE = Except.ok s.whoseTurn := by
  unfold ControllerState.whoseTurn
  cases he : s.whoseTurnE with
  | error e => exact absurd he (whoseTurnE_ne_error s e)
  | ok v => rfl

theorem whoseTurn_eq_of_E (s : ControllerState) (v : Option PlayerController)
    (h : s.whoseTurnE = Except.ok v) : s.whoseTurn = v := by
  have h2 := whoseTurnE_ok s
  rw [h] at h2
  exact (Except.ok.inj h2).symm

theorem whoseTurnE_in_progress (s : ControllerState) (rp yp : PlayerController)
    (hr : s.red = some rp) (hy : s.yellow = some yp)
    (hst : s.gameStatus = some GameStatus.IN_PROGRESS) :
    s.whoseTurnE =
      (match s.firstPlayer with
       | some ConnectFourColor.Red =>
         Except.ok (some (if s.moveCount % 2 = 0 then rp else yp))
       | some ConnectFourColor.Yellow =>
         Except.ok (some (if s.moveCount % 2 = 0 then yp else rp))
       | none => Except.ok none) := by
  unfold ControllerState.whoseTurnE
  simp only [hr, hy, hst, ne_eq, not_true_eq_false, if_false]
  cases hfp : s.firstPlayer with
  | none => rfl
  | some c =>
    cases c <;>
      rcases Nat.mod_two_eq_zero_or_one s.moveCount with h | h <;>
      simp [h]

/-- Claim C1: every snapshot applied via updateFrom that carries a game rebuilds
the controller's board from scratch: starting from the all-empty 6×7 grid, each
move of the log, in log order, sets cell [row][col] to its piece with no
validation, a duplicate coordinate silently overwriting (the cell holds the
LAST move of the log at that coordinate); the rebuild is a pure function of the
log, so the same log always yields structurally identical boards. -/
theorem claimC1_board_rebuilt_from_log (s : ControllerState) (nm : GameArea)
    (occ : List PlayerController) (g : GameInstance) (h : nm.game = some g) :
    (s.updateFrom nm occ).1.board = rebuild g.state.moves ∧
    boardWF (rebuild g.state.moves) ∧
    (∀ (r : Fin 6) (c : Fin 7),
      getCell (rebuild g.state.moves) r c =
        (g.state.moves.reverse.find? (fun m => m.row == r && m.col == c)).map
          (fun m => m.gamePiece)) ∧
    (∀ l2 : List ConnectFourMove, g.state.moves = l2 →
      rebuild g.state.moves = rebuild l2) := by
  refine ⟨?_, boardWF_rebuild _, fun r c => getCell_rebuild _ r c,
    fun l2 h2 => by rw [h2]⟩
  have hb := updateFrom_board s nm occ
  simp only [h] at hb
  exact hb

/-- Witness for claim C1 at a concrete snapshot with a one-move log. -/
theorem claimC1_witness :
    (cs0.updateFrom snap1 sampleOccupants).1.board = rebuild gi1.state.moves :=
  (claimC1_board_rebuilt_from_log cs0 snap1 sampleOccupants gi1 rfl).1

/-- Claim C2: during updateFrom with a game present, the rebuilt board is
compared to the held board by structural equality: if they differ, the board is
replaced and exactly one boardChanged notification carrying the new board is
emitted; if they are identical, the board is untouched and no boardChanged is
emitted — in particular whenever the snapshot's move log equals that of the
previously applied game-carrying snapshot. -/
theorem claimC2_board_change_detection (s : ControllerState) (nm : GameArea)
    (occ : List PlayerController) (g : GameInstance) (h : nm.game = some g) :
    (rebuild g.state.moves ≠ s.board →
      (s.updateFrom nm occ).1.board = rebuild g.state.moves ∧
      (s.updateFrom nm occ).2.filter GameEvent.isBoardChanged =
        [GameEvent.boardChanged (rebuild g.state.moves)]) ∧
    (rebuild g.state.moves = s.board →
      (s.updateFrom nm occ).1.board = s.board ∧
      (s.updateFrom nm occ).2.filter GameEvent.isBoardChanged = []) ∧
    (∀ (s0 : ControllerState) (pm : GameArea) (pocc : List PlayerController)
        (g0 : GameInstance), pm.game = some g0 → s = (s0.updateFrom pm pocc).1 →
        g.state.moves = g0.state.moves →
        (s.updateFrom nm occ).2.filter GameEvent.isBoardChanged = []) := by
  have hb := updateFrom_board s nm occ
  have he := updateFrom_events s nm occ
  simp only [h] at hb he
  have main2 : rebuild g.state.moves = s.board →
      (s.updateFrom nm occ).1.board = s.board ∧
      (s.updateFrom nm occ).2.filter GameEvent.isBoardChanged = [] := by
    intro heq
    constructor
    · rw [hb, heq]
    · rw [he, if_pos heq]
      by_cases ht : s.isOurTurn ≠ (baseUpdateFrom s nm occ).isOurTurn <;>
        simp [ht, GameEvent.isBoardChanged]
  refine ⟨?_, main2, ?_⟩
  · intro hne
    refine ⟨hb, ?_⟩
    rw [he, if_neg hne]
    by_cases ht : s.isOurTurn ≠ (baseUpdateFrom s nm occ).isOurTurn <;>
      simp [ht, GameEvent.isBoardChanged]
  · intro s0 pm pocc g0 hpm hs hmoves
    apply (main2 ?_).2
    rw [hmoves, hs]
    have hb0 := updateFrom_board s0 pm pocc
    simp only [hpm] at hb0
    rw [hb0]

/-- Witness for claim C2: a snapshot whose rebuilt board differs from the held
one emits exactly one boardChanged carrying the new board. -/
theorem claimC2_witness :
    rebuild gi1.state.moves ≠ cs0.board ∧
    (cs0.updateFrom snap1 sampleOccupants).2.filter GameEvent.isBoardChanged =
      [GameEvent.boardChanged (rebuild gi1.state.moves)] :=
  ⟨by decide,
   ((claimC2_board_change_detection cs0 snap1 sampleOccupants gi1 rfl).1
     (by decide)).2⟩

/-- Claim C7 (amended): after a snapshot application, the held board equals the
rebuild-from-moves of the applied snapshot's move log whenever that snapshot
carries a game; a snapshot carrying no game leaves the held board unchanged
(so the board can be stale relative to a game-less snapshot, refuting the
claim's extension to every deliverable snapshot). -/
theorem claimC7_board_tracks_game_snapshots (s : ControllerState) (nm : GameArea)
    (occ : List PlayerController) :
    (∀ g : GameInstance, nm.game = some g →
      (s.updateFrom nm occ).1.board = rebuild g.state.moves) ∧
    (nm.game = none → (s.updateFrom nm occ).1.board = s.board) := by
  constructor
  · intro g h
    have hb := updateFrom_board s nm occ
    simp only [h] at hb
    exact hb
  · intro h
    have hb := updateFrom_board s nm occ
    simp only [h] at hb
    exact hb

/-- Counterexample to claim C7 as stated: after applying a one-move game
snapshot and then a snapshot carrying no game record, the held board is NOT the
rebuild of the most recently applied snapshot's (empty) move log. -/
theorem claimC7_counterexample :
    ¬ (((cs0.updateFrom snap1 sampleOccupants).1.updateFrom snapNoGame
          sampleOccupants).1.board =
        rebuild (specSnapshotMoveLog snapNoGame)) := by decide

/-- Witness for claim C7 (amended), at the game-less snapshot case. -/
theorem claimC7_witness :
    ((cs0.updateFrom snap1 sampleOccupants).1.updateFrom snapNoGame
        sampleOccupants).1.board =
      (cs0.updateFrom snap1 sampleOccupants).1.board :=
  (claimC7_board_tracks_game_snapshots (cs0.updateFrom snap1 sampleOccupants).1
    snapNoGame sampleOccupants).2 rfl

/-- Claim C9: on every snapshot application, "is it our turn" is captured from
the previous state and recomputed on the post-merge state; a turnChanged
notification carrying the new boolean is emitted exactly when the two booleans
differ, independently of the boardChanged notification. -/
theorem claimC9_turn_change_notification (s : ControllerState) (nm : GameArea)
    (occ : List PlayerController) :
    (s.updateFrom nm occ).2.filter GameEvent.isTurnChanged =
      (if s.isOurTurn ≠ (s.updateFrom nm occ).1.isOurTurn
       then [GameEvent.turnChanged ((s.updateFrom nm occ).1.isOurTurn)]
       else []) := by
  rw [updateFrom_events, updateFrom_fst_isOurTurn, List.filter_append]
  cases hg : nm.game with
  | none =>
    by_cases ht : s.isOurTurn ≠ (baseUpdateFrom s nm occ).isOurTurn <;>
      simp [ht, GameEvent.isTurnChanged]
  | some g =>
    by_cases hb : rebuild g.state.moves = s.board <;>
      by_cases ht : s.isOurTurn ≠ (baseUpdateFrom s nm occ).isOurTurn <;>
      simp [hb, ht, GameEvent.isTurnChanged]

/-- Claim C10: whoseTurn never throws: its two 'Invalid move count' branches
are unreachable, because the move count's remainder modulo 2 is always 0 or 1,
so the getter always reaches a plain return. -/
theorem claimC10_whoseTurn_never_throws (s : ControllerState) :
    s.whoseTurnE = Except.ok s.whoseTurn :=
  whoseTurnE_ok s

/-- Claim C3: whenever both color bindings resolve and the game is in progress,
whoseTurn follows move-count parity: with firstPlayer Red, even counts belong
to the red-bound player and odd counts to the yellow-bound one; with
firstPlayer Yellow the mapping is reversed. -/
theorem claimC3_turn_parity (s : ControllerState) (g : GameInstance)
    (rp yp : PlayerController) (hg : s.model.game = some g)
    (hst : g.state.status = GameStatus.IN_PROGRESS)
    (hr : s.red = some rp) (hy : s.yellow = some yp) :
    (g.state.firstPlayer = some ConnectFourColor.Red →
      s.whoseTurn = some (if s.moveCount % 2 = 0 then rp else yp)) ∧
    (g.state.firstPlayer = some ConnectFourColor.Yellow →
      s.whoseTurn = some (if s.moveCount % 2 = 0 then yp else rp)) := by
  have hgs : s.gameStatus = some GameStatus.IN_PROGRESS := by
    simp [ControllerState.gameStatus, hg, hst]
  have hw := whoseTurnE_in_progress s rp yp hr hy hgs
  constructor <;> intro hfp
  · have hfp' : s.firstPlayer = some ConnectFourColor.Red := by
      simp [ControllerState.firstPlayer, hg, hfp]
    rw [hfp'] at hw
    exact whoseTurn_eq_of_E s _ hw
  · have hfp' : s.firstPlayer = some ConnectFourColor.Yellow := by
      simp [ControllerState.firstPlayer, hg, hfp]
    rw [hfp'] at hw
    exact whoseTurn_eq_of_E s _ hw

/-- Witness for claim C3: empty log, firstPlayer Red, so the red-bound player
is to move. -/
theorem claimC3_witness : csInProgress.whoseTurn = some pRed := by
  have h := (claimC3_turn_parity csInProgress gi0 pRed pYellow rfl rfl
    (by decide) (by decide)).1 rfl
  exact h.trans (by decide)

/-- Claim C8: whoseTurn returns absent exactly when the red binding is unset,
the yellow binding is unset, the status is not in progress, or (while in
progress) firstPlayer holds neither recognized value — and in that last
inconsistent case it returns absent silently (an ok result, not a throw);
in every other state it returns a resolved player. -/
theorem claimC8_whoseTurn_absent_iff (s : ControllerState) :
    (s.whoseTurn = none ↔
      s.red = none ∨ s.yellow = none ∨
        s.gameStatus ≠ some GameStatus.IN_PROGRESS ∨ s.firstPlayer = none) ∧
    (s.gameStatus = some GameStatus.IN_PROGRESS → s.firstPlayer = none →
      s.whoseTurnE = Except.ok none) := by
  have hsilent : s.firstPlayer = none → s.whoseTurnE = Except.ok none := by
    intro hfp
    unfold ControllerState.whoseTurnE
    cases hr : s.red with
    | none => rfl
    | some rp =>
      cases hy : s.yellow with
      | none => rfl
      | some yp =>
        dsimp only
        by_cases hst : s.gameStatus ≠ some GameStatus.IN_PROGRESS
        · rw [if_pos hst]
        · rw [if_neg hst, hfp]
  refine ⟨?_, fun _ => hsilent⟩
  cases hr : s.red with
  | none =>
    have hw : s.whoseTurn = none := by
      apply whoseTurn_eq_of_E
      unfold ControllerState.whoseTurnE
      rw [hr]
    simp [hw, hr]
  | some rp =>
    cases hy : s.yellow with
    | none =>
      have hw : s.whoseTurn = none := by
        apply whoseTurn_eq_of_E
        unfold ControllerState.whoseTurnE
        rw [hr, hy]
      simp [hw, hr, hy]
    | some yp =>
      by_cases hst : s.gameStatus = some GameStatus.IN_PROGRESS
      · cases hfp : s.firstPlayer with
        | none =>
          have hw : s.whoseTurn = none :=
            whoseTurn_eq_of_E s none (hsilent hfp)
          simp [hw, hr, hy, hst, hfp]
        | some c =>
          have hw := whoseTurnE_in_progress s rp yp hr hy hst
          rw [hfp] at hw
          cases c <;>
          · have hw2 := whoseTurn_eq_of_E s _ hw
            simp [hw2, hr, hy, hst, hfp]
      · have hw : s.whoseTurn = none := by
          apply whoseTurn_eq_of_E
          unfold ControllerState.whoseTurnE
          rw [hr, hy]
          dsimp only
          rw [if_pos hst]
        simp [hw, hr, hy, hst]

/-- Witness for claim C8 at the inconsistent in-progress state. -/
theorem claimC8_witness :
    csInconsistent.whoseTurn = none ∧
    csInconsistent.whoseTurnE = Except.ok none :=
  ⟨(claimC8_whoseTurn_absent_iff csInconsistent).1.mpr (by decide),
   (claimC8_whoseTurn_absent_iff csInconsistent).2 (by decide) (by decide)⟩

/-- Claim C4: makeMove fails with the no-game-in-progress error whenever no
active (truthy) instance identifier exists or the status is not in progress,
and fails with the column-full error whenever row 0 of the target column is
occupied (and the first guard passes); each failure is an error result carrying
no command, i.e. the throw precedes any send, and the method never mutates
controller state. -/
theorem claimC4_makeMove_guards (s : ControllerState) (col : Fin 7) :
    ((truthyString s.instanceID = false ∨
        s.gameStatus ≠ some GameStatus.IN_PROGRESS) →
      s.makeMove col = Except.error NO_GAME_IN_PROGRESS_ERROR) ∧
    (truthyString s.instanceID = true →
      s.gameStatus = some GameStatus.IN_PROGRESS →
      (getCell s.board 0 col).isSome = true →
      s.makeMove col = Except.error COLUMN_FULL_MESSAGE) := by
  constructor
  · intro h
    have hc : ¬ truthyString s.instanceID = true ∨
        s.gameStatus ≠ some GameStatus.IN_PROGRESS := by
      rcases h with h | h
      · exact Or.inl (by simp [h])
      · exact Or.inr h
    unfold ControllerState.makeMove
    rw [if_pos hc]
  · intro h1 h2 h3
    unfold ControllerState.makeMove
    rw [if_neg (by simp [h1, h2]), if_pos h3]

/-- Witness for claim C4 at a full column of an in-progress game. -/
theorem claimC4_witness :
    truthyString csFullColumn.instanceID = true ∧
    csFullColumn.gameStatus = some GameStatus.IN_PROGRESS ∧
    (getCell csFullColumn.board 0 3).isSome = true ∧
    csFullColumn.makeMove 3 = Except.error COLUMN_FULL_MESSAGE :=
  ⟨by decide, by decide, by decide,
   (claimC4_makeMove_guards csFullColumn 3).2 (by decide) (by decide) (by decide)⟩

/-- Claim C5: when makeMove's preconditions hold, the destination row sent is
the bottom-most empty row of the column (scan from row 5 upward, first empty
row wins), so the first move into an empty column lands at row 5; when no row
of the column is empty the computed row is the defined edge-case value 0. -/
theorem claimC5_bottom_row_chosen (s : ControllerState) (col : Fin 7) :
    (∀ (iid : String) (pc : ConnectFourColor),
      s.instanceID = some iid → iid.isEmpty = false →
      s.gameStatus = some GameStatus.IN_PROGRESS →
      getCell s.board 0 col = none →
      s.gamePiece = Except.ok pc →
      s.makeMove col =
        Except.ok (GameCommand.GameMove iid (nextFreeRow s.board col) col pc)) ∧
    (∀ b : List (List ConnectFourCell),
      (∃ i, i < 6 ∧ getCell b i col = none) →
      getCell b (nextFreeRow b col) col = none ∧
      ∀ j, nextFreeRow b col < j → j < 6 → getCell b j col ≠ none) ∧
    (∀ b : List (List ConnectFourCell),
      getCell b 5 col = none → nextFreeRow b col = 5) ∧
    (∀ b : List (List ConnectFourCell),
      (∀ i, i < 6 → getCell b i col ≠ none) → nextFreeRow b col = 0) := by
  refine ⟨?_, ?_, ?_, ?_⟩
  · intro iid pc h1 h2 h3 h4 h5
    unfold ControllerState.makeMove
    rw [if_neg (by simp [truthyString, h1, h2, h3]), if_neg (by simp [h4])]
    simp only [h5, h1]
    rfl
  · intro b hex
    unfold nextFreeRow
    by_cases h5 : (getCell b 5 ↑col).isNone
    · rw [if_pos h5]
      exact ⟨Option.eq_none_iff_forall_not_mem.mpr
        (fun a ha => by simp [Option.isNone_iff_eq_none.mp h5] at ha),
        fun j hj hj6 => by omega⟩
    · rw [if_neg h5]
      by_cases h4 : (getCell b 4 ↑col).isNone
      · rw [if_pos h4]
        refine ⟨Option.isNone_iff_eq_none.mp h4, fun j hj hj6 => ?_⟩
        have : j = 5 := by omega
        subst this
        simpa [Option.isNone_iff_eq_none] using h5
      · rw [if_neg h4]
        by_cases h3 : (getCell b 3 ↑col).isNone
        · rw [if_pos h3]
          refine ⟨Option.isNone_iff_eq_none.mp h3, fun j hj hj6 => ?_⟩
          interval_cases j <;> simp_all [Option.isNone_iff_eq_none]
        · rw [if_neg h3]
          by_cases h2 : (getCell b 2 ↑col).isNone
          · rw [if_pos h2]
            refine ⟨Option.isNone_iff_eq_none.mp h2, fun j hj hj6 => ?_⟩
            interval_cases j <;> simp_all [Option.isNone_iff_eq_none]
          · rw [if_neg h2]
            by_cases h1 : (getCell b 1 ↑col).isNone
            · rw [if_pos h1]
              refine ⟨Option.isNone_iff_eq_none.mp h1, fun j hj hj6 => ?_⟩
              interval_cases j <;> simp_all [Option.isNone_iff_eq_none]
            · rw [if_neg h1]
              by_cases h0 : (getCell b 0 ↑col).isNone
              · rw [if_pos h0]
                refine ⟨Option.isNone_iff_eq_none.mp h0, fun j hj hj6 => ?_⟩
                interval_cases j <;> simp_all [Option.isNone_iff_eq_none]
              · obtain ⟨i, hi, hnone⟩ := hex
                interval_cases i <;> simp_all [Option.isNone_iff_eq_none]
  · intro b h5
    unfold nextFreeRow
    rw [if_pos (by simp [h5])]
  · intro b hall
    unfold nextFreeRow
    rw [if_neg (by simp [Option.isNone_iff_eq_none]; exact hall 5 (by omega)),
      if_neg (by simp [Option.isNone_iff_eq_none]; exact hall 4 (by omega)),
      if_neg (by simp [Option.isNone_iff_eq_none]; exact hall 3 (by omega)),
      if_neg (by simp [Option.isNone_iff_eq_none]; exact hall 2 (by omega)),
      if_neg (by simp [Option.isNone_iff_eq_none]; exact hall 1 (by omega)),
      if_neg (by simp [Option.isNone_iff_eq_none]; exact hall 0 (by omega))]

/-- Witness for claim C5: the first move into an empty column is sent to
row 5. -/
theorem claimC5_witness :
    csInProgress.makeMove 3 =
      Except.ok (GameCommand.GameMove "game1" 5 3 ConnectFourColor.Red) := by
  have h := (claimC5_bottom_row_chosen csInProgress 3).1 "game1"
    ConnectFourColor.Red rfl (by decide) (by decide) (by decide) rfl
  exact h.trans rfl

/-- Claim C6: startGame fails with the not-startable error whenever the derived
status is not exactly WAITING_TO_START or no instance identifier is known (in
particular, when the status is IN_PROGRESS), the error being an error result
carrying no command; when the preconditions hold it sends exactly the
start-game command bound to the current instance identifier, and it never
mutates controller state. -/
theorem claimC6_startGame_guard (s : ControllerState) :
    ((s.status ≠ GameStatus.WAITING_TO_START ∨ s.instanceID = none) →
      s.startGame = Except.error NO_GAME_STARTABLE) ∧
    (s.status = GameStatus.IN_PROGRESS →
      s.startGame = Except.error NO_GAME_STARTABLE) ∧
    (∀ iid : String, s.status = GameStatus.WAITING_TO_START →
      s.instanceID = some iid → iid.isEmpty = false →
      s.startGame = Except.ok [GameCommand.StartGame iid]) := by
  have main : (s.status ≠ GameStatus.WAITING_TO_START ∨ s.instanceID = none) →
      s.startGame = Except.error NO_GAME_STARTABLE := by
    intro h
    unfold ControllerState.startGame
    rw [if_pos h]
  refine ⟨main, fun h => main (Or.inl (by simp [h])), ?_⟩
  intro iid h1 h2 h3
  unfold ControllerState.startGame
  rw [if_neg (by simp [h1, h2])]
  simp only [h2]
  rw [if_neg (by simp [h3])]

/-- Witness for claim C6 at a startable state. -/
theorem claimC6_witness :
    csWaiting.startGame = Except.ok [GameCommand.StartGame "game1"] :=
  (claimC6_startGame_guard csWaiting).2.2 "game1" rfl rfl (by decide)
